import Mathlib

/-!
# ToyTCP — verification of the TCP engine against its specification

Shallow embedding of the core of a user-space TCP implementation
(`src/tcp.rs`, `src/socket.rs`, `src/packet.rs`).  Machine integers are
modelled as `Nat` with explicit `% 2^w` where the Rust code wraps, and
fallible arithmetic (checked `u32`/`usize` subtraction, which panics on
underflow in the receive worker) is modelled with `Option`, `none`
standing for a panic.  Durations are modelled in nanoseconds; the `f32`
scalings of the RTT estimator (`mul_f32`) are modelled as exact rational
arithmetic on nanoseconds.  Wall-clock reads (`SystemTime::now`,
`elapsed`) are abstracted: a measured round-trip time enters the model
as an explicit parameter.
-/

/-- Modelled from the spec: the `tcpflags` module is not among the given
source files; §4.1 of the spec fixes the flag bits as
`FIN=1, SYN=2, RST=4, PSH=8, ACK=16`. -/
def tcpflags.FIN : Nat := 1

/-- Modelled from the spec: SYN flag bit (§4.1). -/
def tcpflags.SYN : Nat := 2

/-- Modelled from the spec: RST flag bit (§4.1). -/
def tcpflags.RST : Nat := 4

/-- Modelled from the spec: PSH flag bit (§4.1). -/
def tcpflags.PSH : Nat := 8

/-- Modelled from the spec: ACK flag bit (§4.1). -/
def tcpflags.ACK : Nat := 16

/-- `SOCKET_BUFFER_SIZE` from `socket.rs`. -/
def SOCKET_BUFFER_SIZE : Nat := 4380

/-- `MSS` from `tcp.rs`. -/
def MSS : Nat := 1460

/-- `MAX_TRANSMISSION` from `tcp.rs`. -/
def MAX_TRANSMISSION : Nat := 5

/-- Start of `PORT_RANGE` (`40000..60000`) from `tcp.rs`. -/
def PORT_RANGE_START : Nat := 40000

/-- End (exclusive) of `PORT_RANGE` from `tcp.rs`. -/
def PORT_RANGE_END : Nat := 60000

/-- One second in nanoseconds (the unit of our `Duration` model). -/
def SEC : Nat := 1000000000

/-- The RTO estimator state (`struct RTO` in `socket.rs`): current `rto`
and the optional smoothed RTT / RTT variance, in nanoseconds. -/
structure RTOState where
  rto : Nat
  srtt : Option Nat
  rttvar : Option Nat
  deriving Repr, DecidableEq

/-- `RTO::new` — initial `rto` is 1 s, no samples yet. -/
def RTO.new : RTOState := { rto := SEC, srtt := none, rttvar := none }

/-- `RTO::set` — clamp the assigned value into `[1 s, 60 s]`. -/
def RTO.set (r : RTOState) (d : Nat) : RTOState :=
  { r with rto := min (max (1 * SEC) d) (60 * SEC) }

/-- `RTO::backoff` — double the current value through the clamp and
return the new value. -/
def RTO.backoff (r : RTOState) : RTOState × Nat :=
  let r2 := RTO.set r (r.rto * 2)
  (r2, r2.rto)

/-- `RTO::next` — Jacobson/Karn update with `α = 1/8`, `β = 1/4`
(the source's `f32` scalings `mul_f32(0.875)` etc. are modelled as
exact rational arithmetic on nanoseconds), finishing with
`set (srtt + 4·rttvar)`. -/
def RTO.next (r : RTOState) (rtt : Nat) : RTOState :=
  let p : Nat × Nat :=
    match r.srtt, r.rttvar with
    | some srtt, some rttvar =>
      let abs_sub := if rtt > srtt then rtt - srtt else srtt - rtt
      (srtt * 7 / 8 + rtt / 8, rttvar * 3 / 4 + abs_sub / 4)
    | _, _ => (rtt, rtt / 2)
  RTO.set { r with srtt := some p.1, rttvar := some p.2 } (p.1 + 4 * p.2)

/-- An abstract operation on the RTO estimator: the three mutating
entry points of `impl RTO`. -/
inductive RTOOp where
  | set (d : Nat)
  | backoff
  | next (rtt : Nat)

/-- Apply one estimator operation. -/
def RTO.apply (r : RTOState) : RTOOp → RTOState
  | .set d => RTO.set r d
  | .backoff => (RTO.backoff r).1
  | .next rtt => RTO.next r rtt

/-- Apply a sequence of estimator operations. -/
def RTO.applyAll (r : RTOState) (ops : List RTOOp) : RTOState :=
  ops.foldl RTO.apply r

theorem RTO.set_mem (r : RTOState) (d : Nat) :
    1 * SEC ≤ (RTO.set r d).rto ∧ (RTO.set r d).rto ≤ 60 * SEC := by
  unfold RTO.set
  refine ⟨?_, ?_⟩
  · exact le_min (le_max_left _ _) (by norm_num [SEC])
  · exact min_le_right _ _

theorem RTO.apply_mem (r : RTOState) (op : RTOOp) :
    1 * SEC ≤ (RTO.apply r op).rto ∧ (RTO.apply r op).rto ≤ 60 * SEC := by
  cases op with
  | set d => exact RTO.set_mem r d
  | backoff => exact RTO.set_mem r _
  | next rtt => exact RTO.set_mem _ _

theorem RTO.applyAll_mem (ops : List RTOOp) (r : RTOState)
    (h : 1 * SEC ≤ r.rto ∧ r.rto ≤ 60 * SEC) :
    1 * SEC ≤ (RTO.applyAll r ops).rto ∧ (RTO.applyAll r ops).rto ≤ 60 * SEC := by
  induction ops generalizing r with
  | nil => exact h
  | cons op rest ih => exact ih (RTO.apply r op) (RTO.apply_mem r op)

/-- C7: The RTO estimator starts at 1 s; after any sequence of
`set` / `backoff` / `next` operations its value lies in `[1 s, 60 s]`;
`next` stores smoothed values `srtt`, `rttvar` and sets the RTO to
`srtt + 4·rttvar` clamped into `[1 s, 60 s]`; and `backoff` returns
`min(60 s, max(1 s, 2·r))` for prior value `r`. -/
theorem c7_rto_estimator_clamped :
    RTO.new.rto = 1 * SEC ∧
    (∀ ops : List RTOOp,
      1 * SEC ≤ (RTO.applyAll RTO.new ops).rto ∧
      (RTO.applyAll RTO.new ops).rto ≤ 60 * SEC) ∧
    (∀ r : RTOState, (RTO.backoff r).2 = min (60 * SEC) (max (1 * SEC) (2 * r.rto))) ∧
    (∀ (r : RTOState) (rtt : Nat), ∃ s v : Nat,
      (RTO.next r rtt).srtt = some s ∧ (RTO.next r rtt).rttvar = some v ∧
      (RTO.next r rtt).rto = min (max (1 * SEC) (s + 4 * v)) (60 * SEC)) := by
  refine ⟨by norm_num [RTO.new, SEC], ?_, ?_, ?_⟩
  · intro ops
    exact RTO.applyAll_mem ops RTO.new ⟨by norm_num [RTO.new, SEC], by norm_num [RTO.new, SEC]⟩
  · intro r
    simp [RTO.backoff, RTO.set, min_comm, Nat.mul_comm]
  · intro r rtt
    unfold RTO.next
    cases hs : r.srtt with
    | none => exact ⟨rtt, rtt / 2, by simp [hs, RTO.set], by simp [hs, RTO.set], by simp [hs, RTO.set]⟩
    | some srtt =>
      cases hv : r.rttvar with
      | none => exact ⟨rtt, rtt / 2, by simp [hs, hv, RTO.set], by simp [hs, hv, RTO.set], by simp [hs, hv, RTO.set]⟩
      | some rttvar =>
        refine ⟨srtt * 7 / 8 + rtt / 8, rttvar * 3 / 4 + (if rtt > srtt then rtt - srtt else srtt - rtt) / 4, ?_, ?_, ?_⟩ <;>
          simp [hs, hv, RTO.set]

/-! ## Byte-level segment codec (`packet.rs`) -/

/-- Big-endian bytes of a 16-bit value (`u16::to_be_bytes`). -/
def u16be (n : Nat) : List Nat := [n / 256 % 256, n % 256]

/-- Big-endian bytes of a 32-bit value (`u32::to_be_bytes`). -/
def u32be (n : Nat) : List Nat :=
  [n / 2 ^ 24 % 256, n / 2 ^ 16 % 256, n / 2 ^ 8 % 256, n % 256]

/-- Overwrite `buf` starting at index `i` with the bytes `bs`
(`copy_from_slice` into the subslice `buf[i..i+bs.len()]`). -/
def setBytes (buf : List Nat) (i : Nat) : List Nat → List Nat
  | [] => buf
  | b :: rest => setBytes (buf.set i b) (i + 1) rest

/-- `TCP_HEADER_SIZE` from `packet.rs`. -/
def TCP_HEADER_SIZE : Nat := 20

/-- `TCPPacket::new` — a zeroed buffer of header plus payload length. -/
def TCPPacket.new (payload_len : Nat) : List Nat :=
  List.replicate (TCP_HEADER_SIZE + payload_len) 0

/-- `TCPPacket::set_src`. -/
def TCPPacket.set_src (buf : List Nat) (port : Nat) : List Nat := setBytes buf 0 (u16be port)

/-- `TCPPacket::set_dst`. -/
def TCPPacket.set_dst (buf : List Nat) (port : Nat) : List Nat := setBytes buf 2 (u16be port)

/-- `TCPPacket::set_seq`. -/
def TCPPacket.set_seq (buf : List Nat) (seq : Nat) : List Nat := setBytes buf 4 (u32be seq)

/-- `TCPPacket::set_ack`. -/
def TCPPacket.set_ack (buf : List Nat) (ack : Nat) : List Nat := setBytes buf 8 (u32be ack)

/-- `TCPPacket::set_data_offset` — stores `(offset << 4) as u8` in byte 12. -/
def TCPPacket.set_data_offset (buf : List Nat) (off : Nat) : List Nat :=
  buf.set 12 (off * 16 % 256)

/-- `TCPPacket::set_flag` — stores the flag byte at index 13. -/
def TCPPacket.set_flag (buf : List Nat) (flag : Nat) : List Nat := buf.set 13 (flag % 256)

/-- `TCPPacket::set_window_size`. -/
def TCPPacket.set_window_size (buf : List Nat) (size : Nat) : List Nat :=
  setBytes buf 14 (u16be size)

/-- `TCPPacket::set_checksum`. -/
def TCPPacket.set_checksum (buf : List Nat) (c : Nat) : List Nat := setBytes buf 16 (u16be c)

/-- `TCPPacket::set_payload` — writes the payload after the 20-byte header. -/
def TCPPacket.set_payload (buf : List Nat) (payload : List Nat) : List Nat :=
  setBytes buf TCP_HEADER_SIZE payload

/-- `TCPPacket::get_checksum` — big-endian 16-bit read of bytes 16 and 17. -/
def TCPPacket.get_checksum (buf : List Nat) : Nat := 256 * buf.getD 16 0 + buf.getD 17 0

/-- Fold the carries of a one's-complement accumulator back into 16 bits
(the end-around-carry loop of the standard Internet checksum). -/
def foldCarry (n : Nat) : Nat :=
  if h : n < 65536 then n else foldCarry (n % 65536 + n / 65536)
termination_by n
decreasing_by omega

/-- Sum a byte list as big-endian 16-bit words (odd tail padded with 0). -/
def sum16 : List Nat → Nat
  | [] => 0
  | [a] => 256 * a
  | a :: b :: rest => 256 * a + b + sum16 rest

/-- Modelled from the spec: `pnet::util::ipv4_checksum` is external code;
§4.1/§6 describe it as the standard 16-bit one's-complement sum over the
IPv4 pseudo-header (source, destination, protocol, TCP length) and the
whole segment with the checksum field zeroed (the `skipword = 8`
argument skips the checksum word).  Addresses are 4-byte lists. -/
def ipv4_checksum (data : List Nat) (src dst : List Nat) : Nat :=
  let zeroed := (data.set 16 0).set 17 0
  let pseudoSum := sum16 src + sum16 dst + 6 + data.length % 65536
  65535 - foldCarry (pseudoSum + sum16 zeroed)

/-- `TCPPacket::is_correct_checksum` — recompute and compare. -/
def TCPPacket.is_correct_checksum (buf : List Nat) (local_addr remote_addr : List Nat) : Bool :=
  TCPPacket.get_checksum buf = ipv4_checksum buf local_addr remote_addr

/-- The header/payload-filling prefix of `Socket::send_tcp_packet`
(`socket.rs` lines 166–174): the buffer just before the checksum is
stored — src, dst, seq, ack, data-offset 5, flag, the advertised
receive window, and the payload. -/
def tcp_packet_filled (local_port remote_port recv_window seq ack flag : Nat)
    (payload : List Nat) : List Nat :=
  TCPPacket.set_payload
    (TCPPacket.set_window_size
      (TCPPacket.set_flag
        (TCPPacket.set_data_offset
          (TCPPacket.set_ack
            (TCPPacket.set_seq
              (TCPPacket.set_dst
                (TCPPacket.set_src (TCPPacket.new payload.length) local_port)
                remote_port)
              seq)
            ack)
          5)
        flag)
      recv_window)
    payload

/-- The byte-building part of `Socket::send_tcp_packet` (`socket.rs`
lines 159–183): populate every header field, copy the payload, then
store the pseudo-header checksum computed over the segment so far. -/
def send_tcp_packet_bytes (local_addr remote_addr : List Nat)
    (local_port remote_port : Nat) (recv_window : Nat)
    (seq ack flag : Nat) (payload : List Nat) : List Nat :=
  let buf := tcp_packet_filled local_port remote_port recv_window seq ack flag payload
  TCPPacket.set_checksum buf (ipv4_checksum buf local_addr remote_addr)

theorem setBytes_length (bs : List Nat) (buf : List Nat) (i : Nat) :
    (setBytes buf i bs).length = buf.length := by
  induction bs generalizing buf i with
  | nil => rfl
  | cons b rest ih => simp [setBytes, ih]

theorem set_checksum_zeroed (buf : List Nat) (c : Nat) :
    ((TCPPacket.set_checksum buf c).set 16 0).set 17 0 = (buf.set 16 0).set 17 0 := by
  show ((((buf.set 16 (c / 256 % 256)).set 17 (c % 256)).set 16 0).set 17 0) = _
  rw [List.set_comm _ _ _ (by norm_num : (17 : Nat) ≠ 16), List.set_set,
    List.set_set]

theorem set_checksum_length (buf : List Nat) (c : Nat) :
    (TCPPacket.set_checksum buf c).length = buf.length := by
  simpa [TCPPacket.set_checksum] using setBytes_length (u16be c) buf 16

theorem get_checksum_set_checksum (buf : List Nat) (c : Nat)
    (hlen : 18 ≤ buf.length) (hc : c < 65536) :
    TCPPacket.get_checksum (TCPPacket.set_checksum buf c) = c := by
  have h16 : (16 : Nat) < buf.length := by omega
  have h17 : (17 : Nat) < ((buf.set 16 (c / 256 % 256)).length) := by simp; omega
  show 256 * List.getD (((buf.set 16 (c / 256 % 256)).set 17 (c % 256))) 16 0 +
      List.getD (((buf.set 16 (c / 256 % 256)).set 17 (c % 256))) 17 0 = c
  rw [List.getD_eq_getElem?_getD, List.getD_eq_getElem?_getD,
    List.getElem?_set_ne (by norm_num : (17 : Nat) ≠ 16),
    List.getElem?_set_self h16, List.getElem?_set_self h17]
  have hdiv : c / 256 % 256 = c / 256 := Nat.mod_eq_of_lt (by omega)
  simp only [Option.getD_some, hdiv]
  omega

theorem ipv4_checksum_set_checksum (buf src dst : List Nat) (c : Nat) :
    ipv4_checksum (TCPPacket.set_checksum buf c) src dst = ipv4_checksum buf src dst := by
  unfold ipv4_checksum
  rw [set_checksum_zeroed, set_checksum_length]

theorem ipv4_checksum_lt (data src dst : List Nat) :
    ipv4_checksum data src dst < 65536 :=
  lt_of_le_of_lt (Nat.sub_le _ _) (by norm_num)

theorem tcp_packet_filled_length (local_port remote_port recv_window seq ack flag : Nat)
    (payload : List Nat) :
    (tcp_packet_filled local_port remote_port recv_window seq ack flag payload).length =
      TCP_HEADER_SIZE + payload.length := by
  simp [tcp_packet_filled, TCPPacket.set_payload, TCPPacket.set_window_size,
    TCPPacket.set_flag, TCPPacket.set_data_offset, TCPPacket.set_ack, TCPPacket.set_seq,
    TCPPacket.set_dst, TCPPacket.set_src, TCPPacket.new, setBytes_length]

/-- C10: checksum round trip — every segment built and checksummed by
`send_tcp_packet` for the address pair `(local-ip, remote-ip)` passes
`is_correct_checksum(local-ip, remote-ip)`: the encoder's checksum and
the verifier's recomputation agree on every segment the stack produces. -/
theorem c10_checksum_round_trip (local_addr remote_addr : List Nat)
    (local_port remote_port recv_window seq ack flag : Nat) (payload : List Nat) :
    TCPPacket.is_correct_checksum
      (send_tcp_packet_bytes local_addr remote_addr local_port remote_port recv_window
        seq ack flag payload)
      local_addr remote_addr = true := by
  unfold send_tcp_packet_bytes TCPPacket.is_correct_checksum
  have hlen : 18 ≤ (tcp_packet_filled local_port remote_port recv_window seq ack flag
      payload).length := by
    rw [tcp_packet_filled_length]
    have : TCP_HEADER_SIZE = 20 := rfl
    omega
  rw [get_checksum_set_checksum _ _ hlen (ipv4_checksum_lt _ _ _),
    ipv4_checksum_set_checksum]
  simp

/-! ## Socket record (`socket.rs`) and handler-level segments

The state handlers read an incoming packet only through its getters
(`get_seq`, `get_ack`, `get_flag`, `get_window_size`, `payload`), so at
handler level a segment is modelled by those field values directly.
Values are kept in range by construction: `seq`,`ack` modulo `2^32`,
`flag` modulo `2^8`, `window` modulo `2^16`. -/

structure TCPSegment where
  seq : Nat
  ack : Nat
  flag : Nat
  window : Nat
  payload : List Nat
  deriving Repr, DecidableEq

/-- `RetransmissionQueueEntry` (`socket.rs`); the wall-clock field
`latest_transmission_time` is abstracted away, `rto` in nanoseconds. -/
structure RetransmissionQueueEntry where
  packet : TCPSegment
  expected_ack : Nat
  transmission_count : Nat
  rto : Nat
  deriving Repr, DecidableEq

/-- `SendParam` (`socket.rs`). -/
structure SendParam where
  unacked_seq : Nat
  next : Nat
  window : Nat
  initial_seq : Nat
  deriving Repr, DecidableEq

/-- `RecvParam` (`socket.rs`). -/
structure RecvParam where
  next : Nat
  window : Nat
  initial_seq : Nat
  tail : Nat
  deriving Repr, DecidableEq

/-- `TcpStatus` (`socket.rs`). -/
inductive TcpStatus where
  | Listen
  | SynSent
  | SynRcvd
  | Established
  | FinWait1
  | FinWait2
  | TimeWait
  | CloseWait
  | LastAck
  deriving Repr, DecidableEq

/-- The `Socket` record (`socket.rs`), restricted to the fields the
state handlers touch.  `last_time_window_probe : Option SystemTime` is
abstracted to the Bool `is_some` (only presence is ever tested or set);
`sent_times` keeps only the `expected_ack` values, since the recorded
send instants enter the handlers only through the measured round-trip
time, which our handler models take as a parameter. -/
structure Socket where
  send_param : SendParam
  recv_param : RecvParam
  status : TcpStatus
  retransmission_queue : List RetransmissionQueueEntry
  recv_buffer : List Nat
  last_time_window_probe : Bool
  sent_times : List Nat
  rto : RTOState
  deriving Repr, DecidableEq

/-- `RetransmissionQueueEntry::new` (`socket.rs` lines 270–282):
`expected_ack = packet.seq + packet.payload.len()` (as `u32`),
transmission count 1, and the rto passed by the caller. -/
def RetransmissionQueueEntry.new (packet : TCPSegment) (rto : Nat) :
    RetransmissionQueueEntry :=
  { packet := packet
    expected_ack := (packet.seq + packet.payload.length) % 2 ^ 32
    transmission_count := 1
    rto := rto }

/-- `Socket::send_tcp_packet` at handler level (`socket.rs` lines
159–198): build the segment (window field from `recv_param.window`),
and push a copy onto the retransmission queue if and only if it carries
payload or its flags are not pure ACK, the entry taking `self.rto.get()`.
Byte-level construction and checksumming are `send_tcp_packet_bytes`. -/
def Socket.send_tcp_packet (s : Socket) (seq ack flag : Nat) (payload : List Nat) :
    Socket × TCPSegment :=
  let seg : TCPSegment :=
    { seq := seq % 2 ^ 32
      ack := ack % 2 ^ 32
      flag := flag % 2 ^ 8
      window := s.recv_param.window % 2 ^ 16
      payload := payload }
  let s2 :=
    if payload ≠ [] ∨ seg.flag ≠ tcpflags.ACK then
      { s with retransmission_queue :=
          s.retransmission_queue ++ [RetransmissionQueueEntry.new seg s.rto.rto] }
    else s
  (s2, seg)

/-- `TCP::delete_acked_segment_from_retransmission_queue` (`tcp.rs`
lines 614–627): pop entries from the front while their `seq` is below
`SND.UNA`, putting the first unacked entry back. -/
def delete_acked_segment_from_retransmission_queue (unacked_seq : Nat) :
    List RetransmissionQueueEntry → List RetransmissionQueueEntry
  | [] => []
  | e :: rest =>
    if unacked_seq > e.packet.seq then
      delete_acked_segment_from_retransmission_queue unacked_seq rest
    else e :: rest

/-- The reassembly offset of `process_payload` (`tcp.rs` lines
578–579): `(buffer length − RCV.WIN) + (seq − RCV.NXT)`. -/
def reasm_offset (s : Socket) (pkt : TCPSegment) : Nat :=
  s.recv_buffer.length - s.recv_param.window + (pkt.seq - s.recv_param.next)

/-- `copy_size` of `process_payload` (`tcp.rs` line 580): payload
length capped at the space left after the offset. -/
def reasm_copy (s : Socket) (pkt : TCPSegment) : Nat :=
  min pkt.payload.length (s.recv_buffer.length - reasm_offset s pkt)

/-- `TCP::process_payload` (`tcp.rs` lines 570–612).  `none` models a
panic of the receive worker: the checked `u32`/`usize`/`u16`
subtractions panic on underflow in a debug build (in release the
wrapped offset makes the slice indexing panic); additions follow the
wrapping `u32` semantics (`% 2^32`).  On success, returns the updated
socket and the pure ACK emitted when `copy_size > 0`. -/
def process_payload (s : Socket) (pkt : TCPSegment) :
    Option (Socket × Option TCPSegment) :=
  if s.recv_param.window ≤ s.recv_buffer.length ∧ s.recv_param.next ≤ pkt.seq then
    let offset := reasm_offset s pkt
    if offset ≤ s.recv_buffer.length then
      let copy_size := reasm_copy s pkt
      let s1 := { s with
        recv_buffer := setBytes s.recv_buffer offset (pkt.payload.take copy_size)
        recv_param := { s.recv_param with
          tail := max s.recv_param.tail ((pkt.seq + copy_size) % 2 ^ 32) } }
      match (if pkt.seq = s1.recv_param.next then
          if pkt.seq ≤ s1.recv_param.tail ∧
              (s1.recv_param.tail - pkt.seq) % 2 ^ 16 ≤ s1.recv_param.window then
            some { s1 with recv_param := { s1.recv_param with
              next := s1.recv_param.tail
              window := s1.recv_param.window - (s1.recv_param.tail - pkt.seq) % 2 ^ 16 } }
          else none
        else some s1) with
      | none => none
      | some s2 =>
        if 0 < copy_size then
          let r := Socket.send_tcp_packet s2 s2.send_param.next s2.recv_param.next
            tcpflags.ACK []
          some (r.1, some r.2)
        else some (s2, none)
    else none
  else none

/-! ## State handlers (`tcp.rs`) -/

/-- The shared first stage of `established_handler` / `finwait_handler`
when the ack is in range `(SND.UNA, SND.NXT]`: advance `SND.UNA` to the
ack and trim the retransmission queue. -/
def ack_bookkeeping (s : Socket) (pkt : TCPSegment) : Socket :=
  let s1 := { s with send_param := { s.send_param with unacked_seq := pkt.ack } }
  { s1 with retransmission_queue :=
      (delete_acked_segment_from_retransmission_queue s1.send_param.unacked_seq
        s1.retransmission_queue) }

/-- The window-resize / zero-window-probe-mode bookkeeping of
`established_handler` (`tcp.rs` lines 469–479). -/
def window_probe_update (s : Socket) (pkt : TCPSegment) : Socket :=
  if s.send_param.window ≠ pkt.window then
    if pkt.window = 0 ∧ s.last_time_window_probe = false then
      { s with last_time_window_probe := true }
    else if 0 < pkt.window ∧ s.last_time_window_probe = true then
      { s with last_time_window_probe := false }
    else s
  else s

/-- The RTT-sampling step of `established_handler` (`tcp.rs` lines
487–499): if some recorded `expected_ack` equals the segment's ack,
remove the first such sample and feed the measured round-trip time
(`rtt`, a parameter here — the code reads the wall clock) into the
estimator. -/
def rtt_sample (s : Socket) (pkt : TCPSegment) (rtt : Nat) : Socket :=
  if pkt.ack ∈ s.sent_times then
    { s with sent_times := s.sent_times.erase pkt.ack, rto := RTO.next s.rto rtt }
  else s

/-- The window-update and RTT-sampling prefix of `established_handler`
(`tcp.rs` lines 469–499): probe-mode bookkeeping, `SND.WND := segment
window`, then the RTT sample. -/
def established_pre (s : Socket) (pkt : TCPSegment) (rtt : Nat) : Socket :=
  rtt_sample
    { window_probe_update s pkt with
      send_param := { (window_probe_update s pkt).send_param with window := pkt.window } }
    pkt rtt

/-- The FIN acknowledgment of `established_handler` (`tcp.rs` lines
505–512): set `RCV.NXT := seq + 1` and send a pure ACK. -/
def est_fin_reply (s4 : Socket) (pkt : TCPSegment) : Socket × TCPSegment :=
  Socket.send_tcp_packet
    { s4 with recv_param := { s4.recv_param with next := (pkt.seq + 1) % 2 ^ 32 } }
    s4.send_param.next ((pkt.seq + 1) % 2 ^ 32) tcpflags.ACK []

/-- The part of `established_handler` after the ack-range branches
(`tcp.rs` lines 464–517). -/
def established_tail (s : Socket) (pkt : TCPSegment) (rtt : Nat) :
    Option (Socket × List TCPSegment) :=
  if pkt.flag &&& tcpflags.ACK = 0 then some (s, [])
  else
    match (if pkt.payload = [] then
            some (established_pre s pkt rtt, (none : Option TCPSegment))
           else process_payload (established_pre s pkt rtt) pkt) with
    | none => none
    | some (s4, ackSeg) =>
      if 0 < pkt.flag &&& tcpflags.FIN then
        some ({ (est_fin_reply s4 pkt).1 with status := TcpStatus.CloseWait },
          ackSeg.toList ++ [(est_fin_reply s4 pkt).2])
      else some (s4, ackSeg.toList)

/-- `TCP::established_handler` (`tcp.rs` lines 446–518). -/
def established_handler (s : Socket) (pkt : TCPSegment) (rtt : Nat) :
    Option (Socket × List TCPSegment) :=
  if s.send_param.unacked_seq < pkt.ack ∧ pkt.ack ≤ s.send_param.next then
    established_tail (ack_bookkeeping s pkt) pkt rtt
  else if s.send_param.next < pkt.ack then some (s, [])
  else established_tail s pkt rtt

/-- The FIN_WAIT_1 → FIN_WAIT_2 transition of `finwait_handler`
(`tcp.rs` lines 540–545): taken when our FIN is fully acknowledged
(`SND.NXT = SND.UNA`). -/
def finwait_status_update (s1 : Socket) : Socket :=
  if s1.status = TcpStatus.FinWait1 ∧
      s1.send_param.next = s1.send_param.unacked_seq then
    { s1 with status := TcpStatus.FinWait2 }
  else s1

/-- The FIN acknowledgment of `finwait_handler` (`tcp.rs` lines
550–558): `RCV.NXT += 1` and send a pure ACK. -/
def finwait_fin_reply (s2 : Socket) : Socket × TCPSegment :=
  Socket.send_tcp_packet
    { s2 with recv_param := { s2.recv_param with
        next := (s2.recv_param.next + 1) % 2 ^ 32 } }
    s2.send_param.next ((s2.recv_param.next + 1) % 2 ^ 32) tcpflags.ACK []

/-- The part of `finwait_handler` after the ack-range branches
(`tcp.rs` lines 532–561). -/
def finwait_tail (s : Socket) (pkt : TCPSegment) :
    Option (Socket × List TCPSegment) :=
  if pkt.flag &&& tcpflags.ACK = 0 then some (s, [])
  else
    match (if pkt.payload = [] then some (s, (none : Option TCPSegment))
           else process_payload s pkt) with
    | none => none
    | some (s1, ackSeg) =>
      if 0 < pkt.flag &&& tcpflags.FIN then
        some ((finwait_fin_reply (finwait_status_update s1)).1,
          ackSeg.toList ++ [(finwait_fin_reply (finwait_status_update s1)).2])
      else some (finwait_status_update s1, ackSeg.toList)

/-- `TCP::finwait_handler` (`tcp.rs` lines 520–562). -/
def finwait_handler (s : Socket) (pkt : TCPSegment) :
    Option (Socket × List TCPSegment) :=
  if s.send_param.unacked_seq < pkt.ack ∧ pkt.ack ≤ s.send_param.next then
    finwait_tail (ack_bookkeeping s pkt) pkt
  else if s.send_param.next < pkt.ack then some (s, [])
  else finwait_tail s pkt

/-- `TCP::close_handler` (`tcp.rs` lines 564–568), run in CLOSE_WAIT and
LAST_ACK: unconditionally `SND.UNA := packet.ack`. -/
def close_handler (s : Socket) (pkt : TCPSegment) : Socket :=
  { s with send_param := { s.send_param with unacked_seq := pkt.ack } }

/-- `TCP::synrcvd_handler` (`tcp.rs` lines 378–406), effect on the
connection socket itself (on success the handler also pushes this
socket's id onto its listener's accept queue — a different socket). -/
def synrcvd_handler (s : Socket) (pkt : TCPSegment) : Socket :=
  if 0 < pkt.flag &&& tcpflags.ACK ∧ s.send_param.unacked_seq ≤ pkt.ack ∧
      pkt.ack ≤ s.send_param.next then
    { s with
      recv_param := { s.recv_param with next := pkt.seq }
      send_param := { s.send_param with unacked_seq := pkt.ack }
      status := TcpStatus.Established }
  else s

/-- The field updates of `synsent_handler` on a valid SYN+ACK
(`tcp.rs` lines 415–418). -/
def synsent_update (s : Socket) (pkt : TCPSegment) : Socket :=
  { s with
    recv_param := { s.recv_param with
      next := (pkt.seq + 1) % 2 ^ 32
      initial_seq := pkt.seq }
    send_param := { s.send_param with unacked_seq := pkt.ack, window := pkt.window } }

/-- The handshake ACK sent by `synsent_handler` after moving to status
`st` (`tcp.rs` lines 422–427 and 432–437). -/
def synsent_reply (s1 : Socket) (st : TcpStatus) : Socket × TCPSegment :=
  Socket.send_tcp_packet { s1 with status := st }
    s1.send_param.next s1.recv_param.next tcpflags.ACK []

/-- `TCP::synsent_handler` (`tcp.rs` lines 408–444). -/
def synsent_handler (s : Socket) (pkt : TCPSegment) : Socket × List TCPSegment :=
  if 0 < pkt.flag &&& tcpflags.ACK ∧ s.send_param.unacked_seq ≤ pkt.ack ∧
      pkt.ack ≤ s.send_param.next ∧ 0 < pkt.flag &&& tcpflags.SYN then
    if (synsent_update s pkt).send_param.initial_seq <
        (synsent_update s pkt).send_param.unacked_seq then
      ((synsent_reply (synsent_update s pkt) TcpStatus.Established).1,
        [(synsent_reply (synsent_update s pkt) TcpStatus.Established).2])
    else
      ((synsent_reply (synsent_update s pkt) TcpStatus.SynRcvd).1,
        [(synsent_reply (synsent_update s pkt) TcpStatus.SynRcvd).2])
  else (s, [])

/-- The per-socket dispatch of `TCP::receive_handler` (`tcp.rs` lines
312–322).  In LISTEN the handler never mutates the listening socket
itself (on SYN it creates a fresh child socket); the wildcard arm
(`TimeWait`) is the "not implemented state" no-op. -/
def handle_segment (s : Socket) (pkt : TCPSegment) (rtt : Nat) :
    Option (Socket × List TCPSegment) :=
  match s.status with
  | TcpStatus.Listen => some (s, [])
  | TcpStatus.SynRcvd => some (synrcvd_handler s pkt, [])
  | TcpStatus.SynSent => some (synsent_handler s pkt)
  | TcpStatus.Established => established_handler s pkt rtt
  | TcpStatus.CloseWait => some (close_handler s pkt, [])
  | TcpStatus.LastAck => some (close_handler s pkt, [])
  | TcpStatus.FinWait1 => finwait_handler s pkt
  | TcpStatus.FinWait2 => finwait_handler s pkt
  | TcpStatus.TimeWait => some (s, [])

/-- `TCP::close` (`tcp.rs` lines 217–257), effect on the socket: send
`FIN|ACK` with the current `SND.NXT`/`RCV.NXT` and advance `SND.NXT` by
one before the status match; the Bool records whether the socket is
removed from the table synchronously (the LISTEN arm). -/
def tcp_close (s : Socket) : Socket × TCPSegment × Bool :=
  let r := Socket.send_tcp_packet s s.send_param.next s.recv_param.next
    (tcpflags.FIN ||| tcpflags.ACK) []
  let s1 := { r.1 with send_param := { r.1.send_param with
    next := (r.1.send_param.next + 1) % 2 ^ 32 } }
  match s1.status with
  | TcpStatus.Established => ({ s1 with status := TcpStatus.FinWait1 }, r.2, false)
  | TcpStatus.CloseWait => ({ s1 with status := TcpStatus.LastAck }, r.2, false)
  | TcpStatus.Listen => (s1, r.2, true)
  | _ => (s1, r.2, false)

/-- `TCP::select_unused_port` inner loop (`tcp.rs` lines 68–74): try
random draws in order; accept the first differing from every in-use
local port. -/
def select_unused_port_loop (used : List Nat) : List Nat → Option Nat
  | [] => none
  | d :: rest =>
    if d ∉ used then some d else select_unused_port_loop used rest

/-- `TCP::select_unused_port` (`tcp.rs` lines 67–77): at most
`PORT_RANGE.end − PORT_RANGE.start` (= 20000) random attempts (`draws`
models the rng stream, `used` the local ports in the socket table);
exhausting them yields the "no available port found" error (`none`). -/
def select_unused_port (used : List Nat) (draws : List Nat) : Option Nat :=
  select_unused_port_loop used (draws.take (PORT_RANGE_END - PORT_RANGE_START))

/-- The retransmission-RTO assignment of the timer sweep (`tcp.rs`
lines 680–685): a SYN-only segment forces `rto.set(3 s)` and takes that
value; any other segment takes `rto.backoff()`. -/
def timer_rto_update (r : RTOState) (flag : Nat) : RTOState × Nat :=
  if flag = tcpflags.SYN then
    let r2 := RTO.set r (3 * SEC)
    (r2, r2.rto)
  else RTO.backoff r

/-- The socket's estimator state after `k` timer retransmissions of the
initial connect SYN (the estimator is fresh — `RTO::new` — when
`connect` sends the SYN, and no ACK arrives to feed it samples). -/
def syn_rto_state : Nat → RTOState
  | 0 => RTO.new
  | k + 1 => (timer_rto_update (syn_rto_state k) tcpflags.SYN).1

/-- The `rto` field of the connect-SYN retransmission-queue entry after
`k` retransmissions: at enqueue (`k = 0`) it is `self.rto.get()` of the
fresh socket (`RetransmissionQueueEntry::new` via `send_tcp_packet`);
each timer retransmission overwrites it per `timer_rto_update`. -/
def syn_entry_rto : Nat → Nat
  | 0 => RTO.new.rto
  | k + 1 => (timer_rto_update (syn_rto_state k) tcpflags.SYN).2

/-! ## Helper lemmas about the handlers -/

theorem send_tcp_packet_fst_send_param (s : Socket) (seq ack flag : Nat)
    (payload : List Nat) :
    (Socket.send_tcp_packet s seq ack flag payload).1.send_param = s.send_param := by
  unfold Socket.send_tcp_packet
  dsimp only
  split <;> rfl

theorem send_tcp_packet_fst_recv_param (s : Socket) (seq ack flag : Nat)
    (payload : List Nat) :
    (Socket.send_tcp_packet s seq ack flag payload).1.recv_param = s.recv_param := by
  unfold Socket.send_tcp_packet
  dsimp only
  split <;> rfl

theorem send_tcp_packet_fst_status (s : Socket) (seq ack flag : Nat)
    (payload : List Nat) :
    (Socket.send_tcp_packet s seq ack flag payload).1.status = s.status := by
  unfold Socket.send_tcp_packet
  dsimp only
  split <;> rfl

theorem process_payload_shape {s : Socket} {pkt : TCPSegment} {s2 : Socket}
    {o : Option TCPSegment} (h : process_payload s pkt = some (s2, o)) :
    s2.send_param = s.send_param ∧ s2.status = s.status ∧
    s2.sent_times = s.sent_times ∧
    s2.last_time_window_probe = s.last_time_window_probe ∧ s2.rto = s.rto := by
  simp only [process_payload] at h
  split at h
  · split at h
    · split at h
      · exact absurd h (by simp)
      · rename_i s3 heq
        have h3 : s3.send_param = s.send_param ∧ s3.status = s.status ∧
            s3.sent_times = s.sent_times ∧
            s3.last_time_window_probe = s.last_time_window_probe ∧ s3.rto = s.rto := by
          split at heq
          · split at heq
            · cases heq
              exact ⟨rfl, rfl, rfl, rfl, rfl⟩
            · exact absurd heq (by simp)
          · cases heq
            exact ⟨rfl, rfl, rfl, rfl, rfl⟩
        split at h
        · cases h
          simpa [send_tcp_packet_fst_send_param, send_tcp_packet_fst_status,
            Socket.send_tcp_packet] using h3
        · cases h
          exact h3
    · exact absurd h (by simp)
  · exact absurd h (by simp)

theorem window_probe_update_send_param (s : Socket) (pkt : TCPSegment) :
    (window_probe_update s pkt).send_param = s.send_param := by
  unfold window_probe_update
  repeat' split
  all_goals rfl

theorem rtt_sample_send_param (s : Socket) (pkt : TCPSegment) (rtt : Nat) :
    (rtt_sample s pkt rtt).send_param = s.send_param := by
  unfold rtt_sample
  split <;> rfl

theorem established_pre_una_next (s : Socket) (pkt : TCPSegment) (rtt : Nat) :
    (established_pre s pkt rtt).send_param.unacked_seq = s.send_param.unacked_seq ∧
    (established_pre s pkt rtt).send_param.next = s.send_param.next := by
  unfold established_pre
  rw [rtt_sample_send_param]
  constructor <;> simp [window_probe_update_send_param]

theorem established_tail_una_next {s : Socket} {pkt : TCPSegment} {rtt : Nat}
    {s2 : Socket} {segs : List TCPSegment}
    (h : established_tail s pkt rtt = some (s2, segs)) :
    s2.send_param.unacked_seq = s.send_param.unacked_seq ∧
    s2.send_param.next = s.send_param.next := by
  unfold established_tail at h
  split at h
  · cases h
    exact ⟨rfl, rfl⟩
  · split at h
    · exact absurd h (by simp)
    · rename_i s4 ackSeg heq
      have h4 : s4.send_param.unacked_seq = s.send_param.unacked_seq ∧
          s4.send_param.next = s.send_param.next := by
        split at heq
        · cases heq
          exact established_pre_una_next s pkt rtt
        · have hsp := (process_payload_shape heq).1
          rw [hsp]
          exact established_pre_una_next s pkt rtt
      split at h
      · cases h
        simpa [est_fin_reply, send_tcp_packet_fst_send_param] using h4
      · cases h
        exact h4

theorem finwait_status_update_send_param (s : Socket) :
    (finwait_status_update s).send_param = s.send_param := by
  unfold finwait_status_update
  split <;> rfl

theorem finwait_tail_una_next {s : Socket} {pkt : TCPSegment}
    {s2 : Socket} {segs : List TCPSegment}
    (h : finwait_tail s pkt = some (s2, segs)) :
    s2.send_param.unacked_seq = s.send_param.unacked_seq ∧
    s2.send_param.next = s.send_param.next := by
  unfold finwait_tail at h
  split at h
  · cases h
    exact ⟨rfl, rfl⟩
  · split at h
    · exact absurd h (by simp)
    · rename_i s1 ackSeg heq
      have h1 : s1.send_param = s.send_param := by
        split at heq
        · cases heq
          rfl
        · exact (process_payload_shape heq).1
      split at h
      · cases h
        simp [finwait_fin_reply, send_tcp_packet_fst_send_param,
          finwait_status_update_send_param, h1]
      · cases h
        simp [finwait_status_update_send_param, h1]

theorem ack_bookkeeping_send_param (s : Socket) (pkt : TCPSegment) :
    (ack_bookkeeping s pkt).send_param.unacked_seq = pkt.ack ∧
    (ack_bookkeeping s pkt).send_param.next = s.send_param.next := by
  unfold ack_bookkeeping
  exact ⟨rfl, rfl⟩

theorem established_tail_no_ack_flag (s : Socket) (pkt : TCPSegment) (rtt : Nat)
    (h : pkt.flag &&& tcpflags.ACK = 0) :
    established_tail s pkt rtt = some (s, []) := by
  unfold established_tail
  rw [if_pos h]

theorem finwait_tail_no_ack_flag (s : Socket) (pkt : TCPSegment)
    (h : pkt.flag &&& tcpflags.ACK = 0) :
    finwait_tail s pkt = some (s, []) := by
  unfold finwait_tail
  rw [if_pos h]

/-- C1 (amended): in ESTABLISHED, FIN_WAIT_1 and FIN_WAIT_2, a segment
whose ack exceeds SND.NXT is dropped without changing the socket and an
ack in `(SND.UNA, SND.NXT]` advances SND.UNA to it; the ack bookkeeping
runs before the ACK-flag test, so a segment without the ACK flag is
ignored except for that bookkeeping.  In CLOSE_WAIT and LAST_ACK the
handler instead sets SND.UNA to the segment's ack unconditionally. -/
theorem c1_ack_acceptance_amended (s : Socket) (pkt : TCPSegment) (rtt : Nat) :
    ((s.status = TcpStatus.Established ∨ s.status = TcpStatus.FinWait1 ∨
        s.status = TcpStatus.FinWait2) →
      (s.send_param.next < pkt.ack → handle_segment s pkt rtt = some (s, [])) ∧
      (s.send_param.unacked_seq < pkt.ack → pkt.ack ≤ s.send_param.next →
        ∀ s2 segs, handle_segment s pkt rtt = some (s2, segs) →
          s2.send_param.unacked_seq = pkt.ack) ∧
      (pkt.flag &&& tcpflags.ACK = 0 →
        handle_segment s pkt rtt =
          some ((if s.send_param.unacked_seq < pkt.ack ∧ pkt.ack ≤ s.send_param.next
            then ack_bookkeeping s pkt else s), []))) ∧
    ((s.status = TcpStatus.CloseWait ∨ s.status = TcpStatus.LastAck) →
      handle_segment s pkt rtt = some (close_handler s pkt, [])) := by
  constructor
  · intro hst
    refine ⟨?_, ?_, ?_⟩
    · intro hdrop
      have hnotin : ¬ (s.send_param.unacked_seq < pkt.ack ∧
          pkt.ack ≤ s.send_param.next) := fun hc => absurd hdrop (not_lt.mpr hc.2)
      rcases hst with h | h | h <;>
        simp only [handle_segment, h] <;>
        · first
          | (unfold established_handler; rw [if_neg hnotin, if_pos hdrop])
          | (unfold finwait_handler; rw [if_neg hnotin, if_pos hdrop])
    · intro h1 h2 s2 segs hh
      rcases hst with h | h | h <;> simp only [handle_segment, h] at hh
      · unfold established_handler at hh
        rw [if_pos ⟨h1, h2⟩] at hh
        rw [(established_tail_una_next hh).1, (ack_bookkeeping_send_param s pkt).1]
      · unfold finwait_handler at hh
        rw [if_pos ⟨h1, h2⟩] at hh
        rw [(finwait_tail_una_next hh).1, (ack_bookkeeping_send_param s pkt).1]
      · unfold finwait_handler at hh
        rw [if_pos ⟨h1, h2⟩] at hh
        rw [(finwait_tail_una_next hh).1, (ack_bookkeeping_send_param s pkt).1]
    · intro hf
      rcases hst with h | h | h <;> simp only [handle_segment, h]
      · unfold established_handler
        by_cases hin : s.send_param.unacked_seq < pkt.ack ∧ pkt.ack ≤ s.send_param.next
        · rw [if_pos hin, established_tail_no_ack_flag _ _ _ hf, if_pos hin]
        · rw [if_neg hin, if_neg hin]
          by_cases hn : s.send_param.next < pkt.ack
          · rw [if_pos hn]
          · rw [if_neg hn, established_tail_no_ack_flag _ _ _ hf]
      · unfold finwait_handler
        by_cases hin : s.send_param.unacked_seq < pkt.ack ∧ pkt.ack ≤ s.send_param.next
        · rw [if_pos hin, finwait_tail_no_ack_flag _ _ hf, if_pos hin]
        · rw [if_neg hin, if_neg hin]
          by_cases hn : s.send_param.next < pkt.ack
          · rw [if_pos hn]
          · rw [if_neg hn, finwait_tail_no_ack_flag _ _ hf]
      · unfold finwait_handler
        by_cases hin : s.send_param.unacked_seq < pkt.ack ∧ pkt.ack ≤ s.send_param.next
        · rw [if_pos hin, finwait_tail_no_ack_flag _ _ hf, if_pos hin]
        · rw [if_neg hin, if_neg hin]
          by_cases hn : s.send_param.next < pkt.ack
          · rw [if_pos hn]
          · rw [if_neg hn, finwait_tail_no_ack_flag _ _ hf]
  · intro hst
    rcases hst with h | h <;> simp only [handle_segment, h]

/-- A socket in CLOSE_WAIT with `SND.UNA = SND.NXT = 10`. -/
def c1sock : Socket :=
  { send_param := { unacked_seq := 10, next := 10, window := 4380, initial_seq := 0 }
    recv_param := { next := 1, window := 4380, initial_seq := 0, tail := 1 }
    status := TcpStatus.CloseWait
    retransmission_queue := []
    recv_buffer := []
    last_time_window_probe := false
    sent_times := []
    rto := RTO.new }

/-- A pure ACK whose ack (50) exceeds `c1sock`'s `SND.NXT` (10). -/
def c1pkt : TCPSegment :=
  { seq := 1, ack := 50, flag := tcpflags.ACK, window := 4380, payload := [] }

/-- C1 (counterexample): in CLOSE_WAIT, a pure ACK with
`ack = 50 > SND.NXT = 10` is *not* dropped: the handler rewrites
SND.UNA to 50, so the claim's "dropped without changing the socket,
in every post-handshake state including CLOSE_WAIT and LAST_ACK"
is false. -/
theorem c1_ack_acceptance_counterexample :
    c1pkt.flag = tcpflags.ACK ∧ c1pkt.payload = [] ∧
    c1sock.status = TcpStatus.CloseWait ∧
    c1sock.send_param.next < c1pkt.ack ∧
    handle_segment c1sock c1pkt 0 ≠ some (c1sock, []) ∧
    (handle_segment c1sock c1pkt 0).map (fun r => r.1.send_param.unacked_seq) =
      some 50 := by
  refine ⟨rfl, rfl, rfl, by decide, ?_, rfl⟩
  intro h
  have h50 : (handle_segment c1sock c1pkt 0).map
      (fun r => r.1.send_param.unacked_seq) = some 50 := rfl
  rw [h] at h50
  simp [c1sock] at h50

/-- A socket in ESTABLISHED with `SND.NXT = 10`, for the C1 witness. -/
def c1wsock : Socket :=
  { send_param := { unacked_seq := 5, next := 10, window := 4380, initial_seq := 0 }
    recv_param := { next := 1, window := 4380, initial_seq := 0, tail := 1 }
    status := TcpStatus.Established
    retransmission_queue := []
    recv_buffer := []
    last_time_window_probe := false
    sent_times := []
    rto := RTO.new }

/-- A pure ACK beyond `c1wsock`'s SND.NXT. -/
def c1wpkt : TCPSegment :=
  { seq := 1, ack := 50, flag := tcpflags.ACK, window := 4380, payload := [] }

theorem c1_ack_acceptance_amended_witness :
    handle_segment c1wsock c1wpkt 0 = some (c1wsock, []) :=
  ((c1_ack_acceptance_amended c1wsock c1wpkt 0).1 (Or.inl rfl)).1 (by decide)

/-- C2 (amended): `SND.UNA ≤ SND.NXT` is preserved by every state
handler except `close_handler`: in CLOSE_WAIT and LAST_ACK the handler
sets SND.UNA to the segment's ack unconditionally, so there the
invariant survives only when `ack ≤ SND.NXT`. -/
theorem c2_snd_una_le_next_amended (s : Socket) (pkt : TCPSegment) (rtt : Nat)
    (s2 : Socket) (segs : List TCPSegment)
    (hinv : s.send_param.unacked_seq ≤ s.send_param.next)
    (hclose : s.status = TcpStatus.CloseWait ∨ s.status = TcpStatus.LastAck →
      pkt.ack ≤ s.send_param.next)
    (h : handle_segment s pkt rtt = some (s2, segs)) :
    s2.send_param.unacked_seq ≤ s2.send_param.next := by
  cases hst : s.status
  case Listen =>
    simp only [handle_segment, hst] at h
    cases h
    exact hinv
  case TimeWait =>
    simp only [handle_segment, hst] at h
    cases h
    exact hinv
  case SynRcvd =>
    simp only [handle_segment, hst] at h
    cases h
    unfold synrcvd_handler
    split
    · rename_i hc
      simpa using hc.2.2
    · exact hinv
  case SynSent =>
    simp only [handle_segment, hst] at h
    unfold synsent_handler at h
    split at h
    · rename_i hc
      split at h
      all_goals
        cases h
        simp [synsent_reply, send_tcp_packet_fst_send_param, synsent_update, hc.2.2.1]
    · cases h
      exact hinv
  case Established =>
    simp only [handle_segment, hst] at h
    unfold established_handler at h
    split at h
    · rename_i hin
      have h2 := established_tail_una_next h
      rw [h2.1, h2.2, (ack_bookkeeping_send_param s pkt).1,
        (ack_bookkeeping_send_param s pkt).2]
      exact hin.2
    · split at h
      · cases h
        exact hinv
      · have h2 := established_tail_una_next h
        rw [h2.1, h2.2]
        exact hinv
  case FinWait1 =>
    simp only [handle_segment, hst] at h
    unfold finwait_handler at h
    split at h
    · rename_i hin
      have h2 := finwait_tail_una_next h
      rw [h2.1, h2.2, (ack_bookkeeping_send_param s pkt).1,
        (ack_bookkeeping_send_param s pkt).2]
      exact hin.2
    · split at h
      · cases h
        exact hinv
      · have h2 := finwait_tail_una_next h
        rw [h2.1, h2.2]
        exact hinv
  case FinWait2 =>
    simp only [handle_segment, hst] at h
    unfold finwait_handler at h
    split at h
    · rename_i hin
      have h2 := finwait_tail_una_next h
      rw [h2.1, h2.2, (ack_bookkeeping_send_param s pkt).1,
        (ack_bookkeeping_send_param s pkt).2]
      exact hin.2
    · split at h
      · cases h
        exact hinv
      · have h2 := finwait_tail_una_next h
        rw [h2.1, h2.2]
        exact hinv
  case CloseWait =>
    simp only [handle_segment, hst] at h
    cases h
    simpa [close_handler] using hclose (Or.inl hst)
  case LastAck =>
    simp only [handle_segment, hst] at h
    cases h
    simpa [close_handler] using hclose (Or.inr hst)

/-- A socket in CLOSE_WAIT satisfying the invariant (`SND.UNA = 0 ≤ SND.NXT = 10`). -/
def c2sock : Socket :=
  { send_param := { unacked_seq := 0, next := 10, window := 4380, initial_seq := 0 }
    recv_param := { next := 1, window := 4380, initial_seq := 0, tail := 1 }
    status := TcpStatus.CloseWait
    retransmission_queue := []
    recv_buffer := []
    last_time_window_probe := false
    sent_times := []
    rto := RTO.new }

/-- An ACK with ack = 100, far beyond `c2sock`'s `SND.NXT` = 10. -/
def c2pkt : TCPSegment :=
  { seq := 1, ack := 100, flag := tcpflags.ACK, window := 4380, payload := [] }

/-- C2 (counterexample): the CLOSE_WAIT handler breaks the invariant:
from `SND.UNA = 0 ≤ SND.NXT = 10` it produces `SND.UNA = 100 > 10`
(both in the plain and in the wrap-aware order, since `(10 − 100) mod
2^32 ≥ 2^31`). -/
theorem c2_snd_una_le_next_counterexample :
    c2sock.send_param.unacked_seq ≤ c2sock.send_param.next ∧
    handle_segment c2sock c2pkt 0 = some (close_handler c2sock c2pkt, []) ∧
    ¬ (close_handler c2sock c2pkt).send_param.unacked_seq ≤
      (close_handler c2sock c2pkt).send_param.next ∧
    ¬ ((close_handler c2sock c2pkt).send_param.next + 2 ^ 32 -
      (close_handler c2sock c2pkt).send_param.unacked_seq) % 2 ^ 32 < 2 ^ 31 := by
  refine ⟨by decide, rfl, by decide, by decide⟩

/-- A CLOSE_WAIT socket for the C2 witness. -/
def c2wsock : Socket :=
  { send_param := { unacked_seq := 5, next := 10, window := 4380, initial_seq := 0 }
    recv_param := { next := 1, window := 4380, initial_seq := 0, tail := 1 }
    status := TcpStatus.CloseWait
    retransmission_queue := []
    recv_buffer := []
    last_time_window_probe := false
    sent_times := []
    rto := RTO.new }

/-- An ACK within `c2wsock`'s send range. -/
def c2wpkt : TCPSegment :=
  { seq := 1, ack := 7, flag := tcpflags.ACK, window := 4380, payload := [] }

theorem c2_snd_una_le_next_amended_witness :
    (close_handler c2wsock c2wpkt).send_param.unacked_seq ≤
      (close_handler c2wsock c2wpkt).send_param.next :=
  c2_snd_una_le_next_amended c2wsock c2wpkt 0 (close_handler c2wsock c2wpkt) []
    (by decide) (by decide) rfl

/-- A fresh SYN_SENT socket with an empty retransmission queue, as
`connect` creates it just before sending the SYN. -/
def c5sock : Socket :=
  { send_param := { unacked_seq := 0, next := 0, window := 4380, initial_seq := 0 }
    recv_param := { next := 0, window := 4380, initial_seq := 0, tail := 0 }
    status := TcpStatus.SynSent
    retransmission_queue := []
    recv_buffer := []
    last_time_window_probe := false
    sent_times := []
    rto := RTO.new }

/-- C5 (counterexample): sending a SYN with `seq = 100` and empty
payload enqueues an entry with `expected_ack = 100`, not the
`seq + payload-length + 1 = 101` the claim requires for SYN. -/
theorem c5_retransmission_entry_counterexample :
    ((Socket.send_tcp_packet c5sock 100 0 tcpflags.SYN []).1.retransmission_queue.map
      (fun e => e.expected_ack)) = [100] ∧
    ¬ ((Socket.send_tcp_packet c5sock 100 0 tcpflags.SYN []).1.retransmission_queue.map
      (fun e => e.expected_ack)) = [100 + 0 + 1] := by
  refine ⟨by decide, by decide⟩

/-- C5 (amended): a copy is enqueued on the retransmission queue
exactly when the segment carries payload or its flags are not pure ACK;
the entry has transmission count 1, the estimator's current RTO, and
`expected_ack = seq + payload-length` — with no `+ 1` for SYN or FIN. -/
theorem c5_retransmission_entry_amended (s : Socket) (seq ack flag : Nat)
    (payload : List Nat) :
    ((Socket.send_tcp_packet s seq ack flag payload).1.retransmission_queue ≠
        s.retransmission_queue ↔
      (payload ≠ [] ∨ flag % 2 ^ 8 ≠ tcpflags.ACK)) ∧
    (Socket.send_tcp_packet s seq ack flag payload).1.retransmission_queue =
      s.retransmission_queue ++
        (if payload ≠ [] ∨ flag % 2 ^ 8 ≠ tcpflags.ACK then
          [{ packet := (Socket.send_tcp_packet s seq ack flag payload).2
             expected_ack := (seq % 2 ^ 32 + payload.length) % 2 ^ 32
             transmission_count := 1
             rto := s.rto.rto }]
        else []) := by
  unfold Socket.send_tcp_packet RetransmissionQueueEntry.new
  dsimp only
  constructor
  · split
    · rename_i hc
      refine ⟨fun _ => hc, fun _ hEq => ?_⟩
      have := congrArg List.length hEq
      simp at this
    · rename_i hc
      push_neg at hc
      simp [hc.1, hc.2]
      exact hc.2
  · split <;> simp

/-- C6 (counterexample): the connect-SYN retransmission entry starts
with the estimator's initial RTO of 1 s (not 3 s), and after the second
retransmission its RTO is still 3 s (not the 6 s the doubling schedule
3·2^(k−1) predicts). -/
theorem c6_syn_retransmission_counterexample :
    syn_entry_rto 0 = 1 * SEC ∧ ¬ syn_entry_rto 0 = 3 * SEC ∧
    syn_entry_rto 2 = 3 * SEC ∧ ¬ syn_entry_rto 2 = 3 * 2 ^ (2 - 1) * SEC := by
  refine ⟨by decide, by decide, by decide, by decide⟩

/-- C6 (amended): the interval before the first retransmission of the
connect SYN is the estimator's initial RTO of 1 s, and every SYN-only
retransmission sets the entry's RTO to the constant 3 s (the timer
forces `rto.set(3 s)` for SYN segments instead of doubling). -/
theorem c6_syn_retransmission_amended :
    syn_entry_rto 0 = 1 * SEC ∧ ∀ k : Nat, syn_entry_rto (k + 1) = 3 * SEC := by
  constructor
  · simp [syn_entry_rto, RTO.new]
  · intro k
    show (timer_rto_update (syn_rto_state k) tcpflags.SYN).2 = 3 * SEC
    simp only [timer_rto_update, tcpflags.SYN, if_pos rfl, RTO.set]
    norm_num [SEC]

/-- C9: for a socket in any state, `close` emits a `FIN|ACK` segment
carrying the current `SND.NXT` and `RCV.NXT` with empty payload, and
advances `SND.NXT` by one, before the status is inspected — in LISTEN
and in every other state alike. -/
theorem c9_close_always_sends_fin (s : Socket) :
    (tcp_close s).2.1.seq = s.send_param.next % 2 ^ 32 ∧
    (tcp_close s).2.1.ack = s.recv_param.next % 2 ^ 32 ∧
    (tcp_close s).2.1.flag = (tcpflags.FIN ||| tcpflags.ACK) ∧
    (tcp_close s).2.1.payload = [] ∧
    (tcp_close s).1.send_param.next = (s.send_param.next + 1) % 2 ^ 32 := by
  have hsp := send_tcp_packet_fst_send_param s s.send_param.next s.recv_param.next
    (tcpflags.FIN ||| tcpflags.ACK) []
  have hst := send_tcp_packet_fst_status s s.send_param.next s.recv_param.next
    (tcpflags.FIN ||| tcpflags.ACK) []
  unfold tcp_close
  dsimp only
  split <;>
  · refine ⟨?_, ?_, ?_, ?_, ?_⟩
    · simp [Socket.send_tcp_packet]
    · simp [Socket.send_tcp_packet]
    · simp [Socket.send_tcp_packet]
      decide
    · simp [Socket.send_tcp_packet]
    · simp [hsp]

theorem select_unused_port_loop_some {used : List Nat} {l : List Nat} {p : Nat}
    (h : select_unused_port_loop used l = some p) : p ∈ l ∧ p ∉ used := by
  induction l with
  | nil => exact absurd h (by simp [select_unused_port_loop])
  | cons d rest ih =>
    unfold select_unused_port_loop at h
    split at h
    · cases h
      rename_i hd
      exact ⟨List.mem_cons_self _ _, hd⟩
    · rename_i hd
      rcases ih h with ⟨h1, h2⟩
      exact ⟨List.mem_cons_of_mem _ h1, h2⟩

theorem select_unused_port_loop_none {used : List Nat} {l : List Nat} :
    select_unused_port_loop used l = none ↔ ∀ d ∈ l, d ∈ used := by
  induction l with
  | nil => simp [select_unused_port_loop]
  | cons d rest ih =>
    unfold select_unused_port_loop
    split
    · rename_i hd
      simp [hd]
    · rename_i hd
      rw [not_not] at hd
      simp [hd, ih]

/-- C8: local port selection returns a port in `[40000, 60000)` that is
not the local port of any socket in the table (assuming the rng draws
lie in the range, which `gen_range(PORT_RANGE)` guarantees), and it
returns the error (`none`) exactly when all of the
`PORT_RANGE.end − PORT_RANGE.start = 20000` attempted draws were in
use. -/
theorem c8_select_unused_port (used draws : List Nat)
    (hdraws : ∀ d ∈ draws, PORT_RANGE_START ≤ d ∧ d < PORT_RANGE_END) :
    (∀ p, select_unused_port used draws = some p →
      (PORT_RANGE_START ≤ p ∧ p < PORT_RANGE_END) ∧ p ∉ used) ∧
    (select_unused_port used draws = none ↔
      ∀ d ∈ draws.take (PORT_RANGE_END - PORT_RANGE_START), d ∈ used) := by
  constructor
  · intro p hp
    unfold select_unused_port at hp
    rcases select_unused_port_loop_some hp with ⟨h1, h2⟩
    exact ⟨hdraws p (List.mem_of_mem_take h1), h2⟩
  · unfold select_unused_port
    exact select_unused_port_loop_none

theorem c8_select_unused_port_witness :
    ((PORT_RANGE_START ≤ 40001 ∧ 40001 < PORT_RANGE_END) ∧ (40001 : Nat) ∉ [40000]) :=
  (c8_select_unused_port [40000] [40000, 40001] (by decide)).1 40001 (by decide)

/-- A connected socket with the standard 4380-byte reassembly buffer,
`RCV.NXT = 100` and a full window. -/
def c3sock : Socket :=
  { send_param := { unacked_seq := 1, next := 1, window := 4380, initial_seq := 0 }
    recv_param := { next := 100, window := SOCKET_BUFFER_SIZE, initial_seq := 0, tail := 100 }
    status := TcpStatus.Established
    retransmission_queue := []
    recv_buffer := List.replicate SOCKET_BUFFER_SIZE 0
    last_time_window_probe := false
    sent_times := []
    rto := RTO.new }

/-- A duplicate data segment: `seq = 50 < RCV.NXT = 100`, one payload
byte. -/
def c3pkt : TCPSegment :=
  { seq := 50, ack := 1, flag := tcpflags.ACK, window := 4380, payload := [1] }

/-- C3: a duplicate data segment with `seq < RCV.NXT` makes the offset
computation `seq − RCV.NXT` underflow, so the deposit never happens and
the receive worker panics (`none`) instead of dropping the bytes —
bounded, in-buffer behaviour is only obtained when `seq ≥ RCV.NXT` and
the offset stays within the buffer. -/
theorem c3_duplicate_seq_panics :
    c3pkt.seq < c3sock.recv_param.next ∧
    process_payload c3sock c3pkt = none := by
  constructor
  · decide
  · unfold process_payload
    rw [if_neg]
    intro hc
    have : (100 : Nat) ≤ 50 := hc.2
    omega

theorem send_tcp_packet_fst_recv_buffer (s : Socket) (seq ack flag : Nat)
    (payload : List Nat) :
    (Socket.send_tcp_packet s seq ack flag payload).1.recv_buffer = s.recv_buffer := by
  unfold Socket.send_tcp_packet
  dsimp only
  split <;> rfl

theorem send_tcp_packet_snd (s : Socket) (seq ack flag : Nat) (payload : List Nat) :
    (Socket.send_tcp_packet s seq ack flag payload).2 =
      { seq := seq % 2 ^ 32, ack := ack % 2 ^ 32, flag := flag % 2 ^ 8,
        window := s.recv_param.window % 2 ^ 16, payload := payload } := rfl

/-- C4: for every deposit `process_payload` completes (in-range
`u32`/`u16` state assumed), the reassembly step writes exactly
`payload[0..copy]` at offset `o` with `copy = min(L, buffer-size − o)`,
sets `RCV.TAIL := max(RCV.TAIL, seq + copy)`; when `seq = RCV.NXT` it
sets `RCV.NXT := RCV.TAIL` and decrements `RCV.WIN` by
`RCV.TAIL − seq` (otherwise RCV.NXT and RCV.WIN are untouched); and it
emits a pure ACK carrying the new RCV.NXT exactly when `copy > 0`. -/
theorem c4_reassembly_step (s : Socket) (pkt : TCPSegment) (s2 : Socket)
    (out : Option TCPSegment)
    (h : process_payload s pkt = some (s2, out))
    (hseq : pkt.seq + pkt.payload.length < 2 ^ 32)
    (hnext : s.recv_param.next < 2 ^ 32)
    (htail : s.recv_param.tail < 2 ^ 32)
    (hgap : s.recv_param.tail - pkt.seq < 2 ^ 16)
    (hlen : s.recv_buffer.length < 2 ^ 16) :
    s2.recv_buffer = setBytes s.recv_buffer (reasm_offset s pkt)
      (pkt.payload.take (reasm_copy s pkt)) ∧
    s2.recv_param.tail = max s.recv_param.tail (pkt.seq + reasm_copy s pkt) ∧
    (pkt.seq = s.recv_param.next →
      s2.recv_param.next = s2.recv_param.tail ∧
      s2.recv_param.window = s.recv_param.window - (s2.recv_param.tail - pkt.seq)) ∧
    (pkt.seq ≠ s.recv_param.next →
      s2.recv_param.next = s.recv_param.next ∧
      s2.recv_param.window = s.recv_param.window) ∧
    ((∃ seg, out = some seg) ↔ 0 < reasm_copy s pkt) ∧
    (∀ seg, out = some seg → seg.ack = s2.recv_param.next ∧
      seg.flag = tcpflags.ACK ∧ seg.payload = []) := by
  have hcopy_le : reasm_copy s pkt ≤ pkt.payload.length := min_le_left _ _
  have hcopy_len : reasm_copy s pkt ≤ s.recv_buffer.length :=
    le_trans (min_le_right _ _) (Nat.sub_le _ _)
  have hmod32 : (pkt.seq + reasm_copy s pkt) % 2 ^ 32 = pkt.seq + reasm_copy s pkt :=
    Nat.mod_eq_of_lt (by omega)
  have htail2 : max s.recv_param.tail (pkt.seq + reasm_copy s pkt) < 2 ^ 32 :=
    max_lt htail (by omega)
  have hts : max s.recv_param.tail (pkt.seq + reasm_copy s pkt) - pkt.seq < 2 ^ 16 := by
    rcases max_cases s.recv_param.tail (pkt.seq + reasm_copy s pkt) with
      ⟨hmax, _⟩ | ⟨hmax, _⟩ <;> omega
  have hmod16 :
      (max s.recv_param.tail (pkt.seq + reasm_copy s pkt) - pkt.seq) % 2 ^ 16 =
        max s.recv_param.tail (pkt.seq + reasm_copy s pkt) - pkt.seq :=
    Nat.mod_eq_of_lt hts
  simp only [process_payload] at h
  rw [hmod32] at h
  split at h
  · split at h
    · split at h
      · exact absurd h (by simp)
      · rename_i s3 heq
        split at heq
        · rename_i hseqeq
          split at heq
          · cases heq
            split at h
            · rename_i hcpos
              cases h
              refine ⟨?_, ?_, ?_, ?_, ?_, ?_⟩
              · rw [send_tcp_packet_fst_recv_buffer]
              · rw [send_tcp_packet_fst_recv_param]
              · intro _
                rw [send_tcp_packet_fst_recv_param]
                refine ⟨rfl, ?_⟩
                simp only [hmod16]
              · intro hne
                exact absurd hseqeq hne
              · exact ⟨fun _ => hcpos, fun _ => ⟨_, rfl⟩⟩
              · intro seg hseg
                cases hseg
                rw [send_tcp_packet_snd, send_tcp_packet_fst_recv_param]
                refine ⟨?_, rfl, rfl⟩
                exact Nat.mod_eq_of_lt htail2
            · rename_i hczero
              cases h
              refine ⟨rfl, rfl, ?_, ?_, ?_, ?_⟩
              · intro _
                exact ⟨rfl, by simp only [hmod16]⟩
              · intro hne
                exact absurd hseqeq hne
              · simp [hczero]
              · intro seg hseg
                cases hseg
          · exact absurd heq (by simp)
        · rename_i hseqne
          cases heq
          split at h
          · rename_i hcpos
            cases h
            refine ⟨?_, ?_, ?_, ?_, ?_, ?_⟩
            · rw [send_tcp_packet_fst_recv_buffer]
            · rw [send_tcp_packet_fst_recv_param]
            · intro he
              exact absurd he hseqne
            · intro _
              rw [send_tcp_packet_fst_recv_param]
              exact ⟨rfl, rfl⟩
            · exact ⟨fun _ => hcpos, fun _ => ⟨_, rfl⟩⟩
            · intro seg hseg
              cases hseg
              rw [send_tcp_packet_snd, send_tcp_packet_fst_recv_param]
              refine ⟨?_, rfl, rfl⟩
              exact Nat.mod_eq_of_lt hnext
          · rename_i hczero
            cases h
            refine ⟨rfl, rfl, ?_, ?_, ?_, ?_⟩
            · intro he
              exact absurd he hseqne
            · intro _
              exact ⟨rfl, rfl⟩
            · simp [hczero]
            · intro seg hseg
              cases hseg
    · exact absurd h (by simp)
  · exact absurd h (by simp)

/-- An in-order deposit example: empty 8-byte buffer, `RCV.NXT = 0`. -/
def c4wsock : Socket :=
  { send_param := { unacked_seq := 0, next := 0, window := 8, initial_seq := 0 }
    recv_param := { next := 0, window := 8, initial_seq := 0, tail := 0 }
    status := TcpStatus.Established
    retransmission_queue := []
    recv_buffer := List.replicate 8 0
    last_time_window_probe := false
    sent_times := []
    rto := RTO.new }

/-- Three data bytes at `seq = 0`. -/
def c4wpkt : TCPSegment :=
  { seq := 0, ack := 0, flag := tcpflags.ACK, window := 8, payload := [9, 8, 7] }

/-- The socket `process_payload` produces from `c4wsock` and `c4wpkt`:
bytes deposited, `RCV.TAIL = RCV.NXT = 3`, `RCV.WIN = 5`. -/
def c4wres : Socket :=
  { send_param := { unacked_seq := 0, next := 0, window := 8, initial_seq := 0 }
    recv_param := { next := 3, window := 5, initial_seq := 0, tail := 3 }
    status := TcpStatus.Established
    retransmission_queue := []
    recv_buffer := [9, 8, 7, 0, 0, 0, 0, 0]
    last_time_window_probe := false
    sent_times := []
    rto := RTO.new }

/-- The pure ACK emitted for that deposit. -/
def c4wseg : TCPSegment :=
  { seq := 0, ack := 3, flag := tcpflags.ACK, window := 5, payload := [] }

theorem c4_reassembly_step_witness :
    c4wres.recv_param.tail =
      max c4wsock.recv_param.tail (c4wpkt.seq + reasm_copy c4wsock c4wpkt) :=
  (c4_reassembly_step c4wsock c4wpkt c4wres (some c4wseg) (by decide) (by decide)
    (by decide) (by decide) (by decide) (by decide)).2.1
